import Mathlib

/-!
Verification of the cite-agent MCP server (`mcp_server.py`) against its
specification.  The server consists of a license gate
(`validate_license_key`) and a tool dispatcher (`call_tool`) over six
tools.  External effects (the Gumroad verification POST, subprocess runs
of the `cite-agent` CLI, the deep-dive agent, the Zotero library, and the
arXiv PDF download) are modelled by an explicit `World` of outcomes, and
each dispatch produces, besides its textual result, a trace of the
external calls it performed.  Exceptions in the Python source are
modelled as explicit outcome constructors carrying the exception's
message string, and the `try/except` structure becomes the corresponding
case analysis.
-/

namespace CiteAgentMcp

/-- Body of the Gumroad verification JSON: `data.get("success", False)` and
`data.get("purchase", {}).get("refunded", False)`; `none` models an absent
field. -/
structure VerifyBody where
  success : Option Bool
  refunded : Option Bool
deriving DecidableEq, Repr

/-- Outcome of the verification POST in `validate_license_key`: either an
exception (network error, timeout, ...) or a response with a status code
and a body; `none` for the body models `resp.json()` raising (malformed
body). -/
inductive VerifyOutcome where
  | netError (msg : String)
  | response (status : Nat) (body : Option VerifyBody)
deriving DecidableEq, Repr

/-- External calls observable during one tool invocation. -/
inductive Event where
  | verifyCall
  | subprocessRun (cmd : List String)
  | agentCall (question : String)
  | zoteroCall (query : String)
  | httpGet (url : String)
deriving DecidableEq, Repr

/-- `true` for calls to an underlying collaborator of a tool; `false` for
the license-verification call of the gate itself. -/
def Event.isCollab : Event → Bool
  | .verifyCall => false
  | _ => true

/-- `validate_license_key` (mcp_server.py lines 25-45).  `key` is
`os.getenv("CITE_AGENT_API_KEY")`, so `none` models an unset variable;
`if not key` is true for both `None` and `""`.  The second component of
the result records whether the outbound verification request was made. -/
def validate_license_key (key : Option String) (net : VerifyOutcome) :
    Bool × List Event :=
  match key with
  | none => (false, [])
  | some k =>
    if k = "" then (false, [])
    else
      match net with
      | .netError _ => (false, [.verifyCall])
      | .response status body =>
        if status = 200 then
          match body with
          | none => (false, [.verifyCall])
          | some data =>
            ((data.success.getD false) && !(data.refunded.getD false),
              [.verifyCall])
        else (false, [.verifyCall])

/-- Process-wide configuration read from the environment (lines 22-23):
`CITE_AGENT_API_KEY` (may be unset) and `GUMROAD_PERMALINK`
(defaulted to `"cite-agent-pro"` by `os.getenv`). -/
structure Config where
  api_key : Option String
  permalink : String
deriving DecidableEq, Repr

/-- The argument mapping of a tool invocation: one optional field per key
that some handler reads; `none` models an absent key, whose lookup by
`arguments["k"]` raises `KeyError("k")`. -/
structure Args where
  query : Option String
  max_results : Option Int
  question : Option String
  url_or_id : Option String
  citation : Option String
deriving DecidableEq, Repr

/-- Outcome of a `subprocess.run` of the `cite-agent` CLI: captured stdout,
or an exception (e.g. `TimeoutExpired` after 60 s). -/
inductive ProcOutcome where
  | ok (stdout : String)
  | exn (msg : String)
deriving DecidableEq, Repr

/-- Outcome of `agent.process_request` in the deep-dive handler: an
exception, or a response with `error_message` and `response` fields. -/
inductive AgentRun where
  | exn (msg : String)
  | ok (error_message : Option String) (response : String)
deriving DecidableEq, Repr

/-- Outcome of `zot.top(q=...)`: an exception or the items, already
rendered by `json.dumps(items, indent=2)`. -/
inductive ZoteroRun where
  | exn (msg : String)
  | ok (items_json : String)
deriving DecidableEq, Repr

/-- Outcome of `PdfReader` on the downloaded bytes: an exception, or the
per-page `extract_text()` strings. -/
inductive PdfParse where
  | exn (msg : String)
  | pages (texts : List String)
deriving DecidableEq, Repr

/-- Outcome of the `client.get(url)` download in `read_arxiv_pdf`. -/
inductive HttpGetOutcome where
  | exn (msg : String)
  | response (status : Nat) (parse : PdfParse)
deriving DecidableEq, Repr

/-- The behaviour of every external collaborator during one invocation.
`agent_init_error` / `zotero_init_error` model a failure of the import,
construction or initialization steps that run before the handler reads
its argument; `none` means those steps succeed. -/
structure World where
  verify : VerifyOutcome
  search_proc : ProcOutcome
  citation_proc : ProcOutcome
  financial_proc : ProcOutcome
  agent_init_error : Option String
  agent_run : AgentRun
  zotero_init_error : Option String
  zotero_run : ZoteroRun
  pdf_get : HttpGetOutcome
deriving DecidableEq, Repr

/-- The Gumroad purchase link interpolated into the locked message. -/
def purchase_link (permalink : String) : String :=
  "https://gumroad.com/l/" ++ permalink

/-- The locked result of line 153. -/
def lockedMessage (name permalink : String) : String :=
  "⚠️ **PRO Feature Locked**\n\n'" ++ name ++
    "' requires a Cite-Agent Pro license.\n\n👉 **Get your key here:** " ++
    purchase_link permalink ++
    "\n\nSet the CITE_AGENT_API_KEY environment variable to unlock."

/-- The outer `except` of line 238. -/
def sysError (msg : String) : String := "❌ System Error: " ++ msg

/-- The inner `except` of the deep-dive handler (line 190). -/
def integrationError (msg : String) : String := "❌ Integration Error: " ++ msg

/-- The `error_message` branch of the deep-dive handler (line 186). -/
def agentError (msg : String) : String := "❌ Agent Error: " ++ msg

/-- The inner `except` of the Zotero handler (line 200). -/
def zoteroError (msg : String) : String :=
  "❌ Zotero Error: " ++ msg ++
    ". Ensure ZOTERO_USER_ID and ZOTERO_API_KEY are set."

/-- The subprocess command of the search handler (line 162). -/
def search_cmd (query : String) (n : Int) : List String :=
  ["cite-agent",
    "Find academic papers on: " ++ query ++ ". Show " ++ toString n ++
      " results."]

/-- The subprocess command of the citation handler (line 225). -/
def citation_cmd (citation : String) : List String :=
  ["cite-agent", "Verify this citation: " ++ citation]

/-- The subprocess command of the financial handler (line 230). -/
def financial_cmd (query : String) : List String :=
  ["cite-agent", query]

/-- Python's `str.startswith`, character-level. -/
def py_startswith (s pre : String) : Bool :=
  s.data.take pre.data.length == pre.data

/-- Lines 207-208: a `url_or_id` not starting with `"http"` is
interpolated into the canonical arXiv PDF URL. -/
def arxiv_url (u : String) : String :=
  if py_startswith u "http" then u else "https://arxiv.org/pdf/" ++ u ++ ".pdf"

/-- Python string slicing `s[:n]`: the first `n` characters. -/
def take_chars (s : String) (n : Nat) : String := ⟨s.data.take n⟩

/-- The `try` block of `call_tool` (lines 156-238), given the already
computed entitlement: dispatch on the tool name, delegate, and catch every
exception into a textual result.  The returned trace holds the
collaborator calls made by the handler. -/
def handle (w : World) (args : Args) (is_pro : Bool) (name : String) :
    String × List Event :=
  if name = "search_papers" then
    match args.query with
    | none => (sysError "'query'", [])
    | some query =>
      let mr := args.max_results.getD 10
      let mr := if is_pro = false then min mr 5 else mr
      let cmd := search_cmd query mr
      match w.search_proc with
      | .ok out => (out, [.subprocessRun cmd])
      | .exn m => (sysError m, [.subprocessRun cmd])
  else if name = "research_deep_dive" then
    match w.agent_init_error with
    | some m => (integrationError m, [])
    | none =>
      match args.question with
      | none => (integrationError "'question'", [])
      | some q =>
        match w.agent_run with
        | .exn m => (integrationError m, [.agentCall q])
        | .ok (some em) _ => (agentError em, [.agentCall q])
        | .ok none resp =>
          ("🧠 **Deep Research Synthesis**\n\n" ++ resp, [.agentCall q])
  else if name = "get_zotero_papers" then
    match w.zotero_init_error with
    | some m => (zoteroError m, [])
    | none =>
      match args.query with
      | none => (zoteroError "'query'", [])
      | some q =>
        match w.zotero_run with
        | .exn m => (zoteroError m, [.zoteroCall q])
        | .ok js => (js, [.zoteroCall q])
  else if name = "read_arxiv_pdf" then
    match args.url_or_id with
    | none => (sysError "'url_or_id'", [])
    | some u =>
      let url := arxiv_url u
      match w.pdf_get with
      | .exn m => (sysError m, [.httpGet url])
      | .response status parse =>
        if status ≠ 200 then
          ("❌ Failed to download PDF: " ++ toString status, [.httpGet url])
        else
          match parse with
          | .exn m => (sysError m, [.httpGet url])
          | .pages ps =>
            let text := String.join (ps.take 10)
            ("📄 **Full Text (First 10 pages)**\n\n" ++
                take_chars text 15000 ++ "...",
              [.httpGet url])
  else if name = "verify_citation" then
    match args.citation with
    | none => (sysError "'citation'", [])
    | some c =>
      match w.citation_proc with
      | .ok out => (out, [.subprocessRun (citation_cmd c)])
      | .exn m => (sysError m, [.subprocessRun (citation_cmd c)])
  else if name = "get_financial_data" then
    match args.query with
    | none => (sysError "'query'", [])
    | some q =>
      match w.financial_proc with
      | .ok out => (out, [.subprocessRun (financial_cmd q)])
      | .exn m => (sysError m, [.subprocessRun (financial_cmd q)])
  else
    (sysError ("Unknown tool: " ++ name), [])

/-- `call_tool` (lines 145-238): recompute entitlement, short-circuit to
the locked message for any non-search tool without entitlement, otherwise
run the handler.  The trace is the gate's verification call followed by
the handler's collaborator calls. -/
def call_tool (cfg : Config) (w : World) (name : String) (args : Args) :
    String × List Event :=
  let gate := validate_license_key cfg.api_key w.verify
  if name ≠ "search_papers" ∧ gate.1 = false then
    (lockedMessage name cfg.permalink, gate.2)
  else
    let r := handle w args gate.1 name
    (r.1, gate.2 ++ r.2)

/-- One tool invocation together with the external behaviour it observes. -/
structure Invocation where
  world : World
  name : String
  args : Args
deriving DecidableEq, Repr

/-- A sequence of tool invocations against the same process-wide
configuration: the server holds no other state between calls. -/
def call_tool_seq (cfg : Config) (calls : List Invocation) :
    List (String × List Event) :=
  calls.map fun c => call_tool cfg c.world c.name c.args

/-- The fixed tool catalog of `list_tools` (lines 50-143). -/
def toolCatalog : List String :=
  ["search_papers", "research_deep_dive", "get_zotero_papers",
    "read_arxiv_pdf", "verify_citation", "get_financial_data"]

/-- Substring containment, stated on the underlying character lists. -/
def containsStr (hay ndl : String) : Prop :=
  ∃ l r : List Char, hay.data = l ++ ndl.data ++ r

end CiteAgentMcp

namespace CiteAgentMcp

/-! ### Helper lemmas -/

/-- A non-empty credential always triggers exactly one verification call,
whatever the network does. -/
theorem validate_events_nonempty (k : String) (hk : k ≠ "") (net : VerifyOutcome) :
    (validate_license_key (some k) net).2 = [Event.verifyCall] := by
  rcases net with m | ⟨st, b⟩
  · simp [validate_license_key, hk]
  · by_cases h200 : st = 200
    · rcases b with _ | d <;> simp [validate_license_key, hk, h200]
    · simp [validate_license_key, hk, h200]

/-- The gate makes either no call or exactly one verification call. -/
theorem validate_events_cases (k : Option String) (net : VerifyOutcome) :
    (validate_license_key k net).2 = [] ∨
      (validate_license_key k net).2 = [Event.verifyCall] := by
  rcases k with _ | s
  · exact Or.inl rfl
  · by_cases hs : s = ""
    · exact Or.inl (by simp [validate_license_key, hs])
    · exact Or.inr (validate_events_nonempty s hs net)

/-- The gate itself never calls a collaborator. -/
theorem validate_collab_free (k : Option String) (net : VerifyOutcome) :
    ((validate_license_key k net).2).filter Event.isCollab = [] := by
  rcases validate_events_cases k net with h | h <;> rw [h] <;> rfl

theorem data_append (s t : String) : (s ++ t).data = s.data ++ t.data := rfl

/-- Gate short-circuit: a non-search tool without entitlement yields the
locked message and only the gate's own trace. -/
theorem call_tool_locked (cfg : Config) (w : World) (args : Args) (name : String)
    (h1 : name ≠ "search_papers")
    (h2 : (validate_license_key cfg.api_key w.verify).1 = false) :
    call_tool cfg w name args =
      (lockedMessage name cfg.permalink,
        (validate_license_key cfg.api_key w.verify).2) := by
  simp only [call_tool]
  rw [if_pos ⟨h1, h2⟩]

/-- Gate pass-through: the free tool, or any tool with entitlement, reaches
the handler. -/
theorem call_tool_pass (cfg : Config) (w : World) (args : Args) (name : String)
    (h : name = "search_papers" ∨
      (validate_license_key cfg.api_key w.verify).1 = true) :
    call_tool cfg w name args =
      ((handle w args (validate_license_key cfg.api_key w.verify).1 name).1,
        (validate_license_key cfg.api_key w.verify).2 ++
          (handle w args (validate_license_key cfg.api_key w.verify).1 name).2) := by
  simp only [call_tool]
  rw [if_neg]
  rintro ⟨h1, h2⟩
  rcases h with h | h
  · exact h1 h
  · rw [h] at h2
    cases h2

theorem lockedMessage_has_name (name p : String) :
    containsStr (lockedMessage name p) name := by
  refine ⟨"⚠️ **PRO Feature Locked**\n\n'".data,
    ("' requires a Cite-Agent Pro license.\n\n👉 **Get your key here:** " ++
      purchase_link p ++
      "\n\nSet the CITE_AGENT_API_KEY environment variable to unlock.").data, ?_⟩
  simp [lockedMessage, data_append, List.append_assoc]

theorem lockedMessage_has_link (name p : String) :
    containsStr (lockedMessage name p) (purchase_link p) := by
  refine ⟨("⚠️ **PRO Feature Locked**\n\n'" ++ name ++
      "' requires a Cite-Agent Pro license.\n\n👉 **Get your key here:** ").data,
    "\n\nSet the CITE_AGENT_API_KEY environment variable to unlock.".data, ?_⟩
  simp [lockedMessage, data_append, List.append_assoc]

theorem take_chars_length_le (s : String) (n : Nat) :
    (take_chars s n).length ≤ n := by
  simp only [take_chars, String.length]
  simp

/-! ### Claim theorems -/

/-- C1: for every tool name other than the free-tier `search_papers`, if the
entitlement check returns `false`, `call_tool` returns the locked result —
which contains the upgrade message and the purchase link — and no
underlying collaborator (subprocess, HTTP backend, or library) is invoked:
the trace holds no collaborator event. -/
theorem paid_tools_locked (cfg : Config) (w : World) (args : Args) (name : String)
    (h1 : name ≠ "search_papers")
    (h2 : (validate_license_key cfg.api_key w.verify).1 = false) :
    (call_tool cfg w name args).1 = lockedMessage name cfg.permalink ∧
      containsStr (call_tool cfg w name args).1 (purchase_link cfg.permalink) ∧
      ((call_tool cfg w name args).2).filter Event.isCollab = [] := by
  rw [call_tool_locked cfg w args name h1 h2]
  exact ⟨rfl, lockedMessage_has_link name cfg.permalink, validate_collab_free _ _⟩

/-- C1 witness: `verify_citation` with no credential set is locked. -/
theorem paid_tools_locked_witness :
    ("verify_citation" : String) ≠ "search_papers" ∧
      (call_tool ⟨none, "cite-agent-pro"⟩
          ⟨.netError "t", .ok "s", .ok "c", .ok "f", none, .ok none "r",
            none, .ok "[]", .response 200 (.pages ["p"])⟩
          "verify_citation" ⟨none, none, none, none, some "c"⟩).1 =
        lockedMessage "verify_citation" "cite-agent-pro" := by
  refine ⟨by decide, ?_⟩
  exact (paid_tools_locked ⟨none, "cite-agent-pro"⟩
    ⟨.netError "t", .ok "s", .ok "c", .ok "f", none, .ok none "r",
      none, .ok "[]", .response 200 (.pages ["p"])⟩
    ⟨none, none, none, none, some "c"⟩ "verify_citation" (by decide) rfl).1

/-- C2: for a non-empty credential, the gate returns `true` iff the
verification response has status 200 (the HTTP success status the code
tests for), a parsed body whose success flag is `true`, and a refund flag
that is `false` or absent.  Every other outcome — network error or
timeout, non-success status, malformed body — yields `false`; the
embedding is a total function, so no exception reaches the caller. -/
theorem license_gate_iff (k : String) (hk : k ≠ "") (net : VerifyOutcome) :
    (validate_license_key (some k) net).1 = true ↔
      ∃ b : VerifyBody, net = .response 200 (some b) ∧
        b.success = some true ∧ b.refunded.getD false = false := by
  constructor
  · intro h
    rcases net with m | ⟨st, b⟩
    · simp [validate_license_key, hk] at h
    · rcases b with _ | d
      · by_cases h200 : st = 200 <;> simp [validate_license_key, hk, h200] at h
      · by_cases h200 : st = 200
        · subst h200
          simp [validate_license_key, hk] at h
          refine ⟨d, rfl, ?_, ?_⟩
          · rcases hd : d.success with _ | s
            · rw [hd] at h; simp at h
            · rw [hd] at h; simp at h
              rcases h with ⟨hs, _⟩
              simp [hs]
          · rcases hd : d.refunded with _ | s
            · simp
            · rw [hd] at h; simp at h
              simp [h.2]
        · simp [validate_license_key, hk, h200] at h
  · rintro ⟨b, rfl, hs, hr⟩
    simp [validate_license_key, hk, hs, hr]

/-- C2 witness: a 200 response with `success = true` and no refund field
grants entitlement. -/
theorem license_gate_iff_witness :
    ("LICENSE-KEY" : String) ≠ "" ∧
      (validate_license_key (some "LICENSE-KEY")
          (.response 200 (some ⟨some true, none⟩))).1 = true :=
  ⟨by decide, (license_gate_iff "LICENSE-KEY" (by decide) _).mpr
    ⟨⟨some true, none⟩, rfl, rfl, rfl⟩⟩

/-- C3: an absent (`None`) or empty credential yields `false` immediately,
with no verification network call, whatever the network would answer. -/
theorem empty_credential_no_network (net : VerifyOutcome) :
    validate_license_key none net = (false, []) ∧
      validate_license_key (some "") net = (false, []) :=
  ⟨rfl, by simp [validate_license_key]⟩

/-- C4: for `search_papers` with a requested count above 5, an unentitled
call delegates with an effective count of exactly 5, while an entitled
call with a count up to 10 delegates the requested count unclamped. -/
theorem free_tier_clamp (cfg : Config) (w : World) (args : Args)
    (query : String) (m : Int)
    (hq : args.query = some query) (hm : args.max_results = some m)
    (h5 : 5 < m) :
    ((validate_license_key cfg.api_key w.verify).1 = false →
        Event.subprocessRun (search_cmd query 5) ∈
          (call_tool cfg w "search_papers" args).2) ∧
    ((validate_license_key cfg.api_key w.verify).1 = true → m ≤ 10 →
        Event.subprocessRun (search_cmd query m) ∈
          (call_tool cfg w "search_papers" args).2) := by
  constructor
  · intro hfalse
    rw [call_tool_pass cfg w args _ (Or.inl rfl)]
    rcases hp : w.search_proc with out | msg <;>
      simp [handle, hq, hm, hfalse, hp, min_eq_right h5.le]
  · intro htrue _
    rw [call_tool_pass cfg w args _ (Or.inl rfl)]
    rcases hp : w.search_proc with out | msg <;>
      simp [handle, hq, hm, htrue, hp]

/-- C4 witness: credential unset, query "transformer architecture",
`max_results = 20` — the delegated count is 5. -/
theorem free_tier_clamp_witness :
    (5 : Int) < 20 ∧
      Event.subprocessRun (search_cmd "transformer architecture" 5) ∈
        (call_tool ⟨none, "cite-agent-pro"⟩
            ⟨.netError "t", .ok "s", .ok "c", .ok "f", none, .ok none "r",
              none, .ok "[]", .response 200 (.pages ["p"])⟩
            "search_papers"
            ⟨some "transformer architecture", some 20, none, none, none⟩).2 :=
  ⟨by decide,
    (free_tier_clamp ⟨none, "cite-agent-pro"⟩
        ⟨.netError "t", .ok "s", .ok "c", .ok "f", none, .ok none "r",
          none, .ok "[]", .response 200 (.pages ["p"])⟩
        ⟨some "transformer architecture", some 20, none, none, none⟩
        "transformer architecture" 20 rfl rfl (by decide)).1 rfl⟩

/-- C5: for every name outside the six-tool catalog, dispatch returns a
failure result containing the invalid name, regardless of entitlement —
the "Unknown tool" system error when entitled, the locked notice when not
— and never calls a collaborator. -/
theorem unknown_tool_error (cfg : Config) (w : World) (args : Args) (name : String)
    (h : name ∉ toolCatalog) :
    containsStr (call_tool cfg w name args).1 name ∧
      ((call_tool cfg w name args).1 =
        if (validate_license_key cfg.api_key w.verify).1 = true
        then sysError ("Unknown tool: " ++ name)
        else lockedMessage name cfg.permalink) ∧
      ((call_tool cfg w name args).2).filter Event.isCollab = [] := by
  simp only [toolCatalog, List.mem_cons, List.not_mem_nil, or_false, not_or] at h
  obtain ⟨h1, h2, h3, h4, h5, h6⟩ := h
  rcases hb : (validate_license_key cfg.api_key w.verify).1 with _ | _
  · rw [call_tool_locked cfg w args name h1 hb]
    exact ⟨lockedMessage_has_name name cfg.permalink, by simp [hb],
      validate_collab_free _ _⟩
  · have hp := call_tool_pass cfg w args name (Or.inr hb)
    rw [hb] at hp
    have hh : handle w args true name =
        (sysError ("Unknown tool: " ++ name), []) := by
      simp [handle, h1, h2, h3, h4, h5, h6]
    rw [hp, hh]
    refine ⟨⟨("❌ System Error: " ++ "Unknown tool: ").data, [], ?_⟩,
      by simp [hb], ?_⟩
    · simp [sysError, data_append, List.append_assoc]
    · simp [validate_collab_free]

/-- C5 witness: an entitled caller requesting "frobnicate" gets the
"Unknown tool" system error naming it. -/
theorem unknown_tool_error_witness :
    ("frobnicate" : String) ∉ toolCatalog ∧
      (call_tool ⟨some "LICENSE-KEY", "cite-agent-pro"⟩
          ⟨.response 200 (some ⟨some true, some false⟩), .ok "s", .ok "c",
            .ok "f", none, .ok none "r", none, .ok "[]",
            .response 200 (.pages ["p"])⟩
          "frobnicate" ⟨none, none, none, none, none⟩).1 =
        sysError ("Unknown tool: " ++ "frobnicate") := by
  have h : ("frobnicate" : String) ∉ toolCatalog := by decide
  refine ⟨h, ?_⟩
  rw [(unknown_tool_error ⟨some "LICENSE-KEY", "cite-agent-pro"⟩
      ⟨.response 200 (some ⟨some true, some false⟩), .ok "s", .ok "c",
        .ok "f", none, .ok none "r", none, .ok "[]",
        .response 200 (.pages ["p"])⟩
      ⟨none, none, none, none, none⟩ "frobnicate" h).2.1]
  rfl

/-- C6: for an invocation that has passed the gate, an exception raised by
the delegated collaborator — subprocess, HTTP download, agent, or Zotero
library — is caught and converted into a textual error result carrying the
exception's message; dispatch is a total function, so no fault escapes. -/
theorem delegation_exception_caught (cfg : Config) (w : World) (args : Args)
    (hpro : (validate_license_key cfg.api_key w.verify).1 = true) :
    (∀ q m, args.query = some q → w.search_proc = .exn m →
        (call_tool cfg w "search_papers" args).1 = sysError m) ∧
    (∀ c m, args.citation = some c → w.citation_proc = .exn m →
        (call_tool cfg w "verify_citation" args).1 = sysError m) ∧
    (∀ q m, args.query = some q → w.financial_proc = .exn m →
        (call_tool cfg w "get_financial_data" args).1 = sysError m) ∧
    (∀ u m, args.url_or_id = some u → w.pdf_get = .exn m →
        (call_tool cfg w "read_arxiv_pdf" args).1 = sysError m) ∧
    (∀ q m, w.agent_init_error = none → args.question = some q →
        w.agent_run = .exn m →
        (call_tool cfg w "research_deep_dive" args).1 = integrationError m) ∧
    (∀ q m, w.zotero_init_error = none → args.query = some q →
        w.zotero_run = .exn m →
        (call_tool cfg w "get_zotero_papers" args).1 = zoteroError m) := by
  refine ⟨?_, ?_, ?_, ?_, ?_, ?_⟩
  · intro q m hq hp
    rw [call_tool_pass cfg w args _ (Or.inl rfl)]
    simp [handle, hq, hp]
  · intro c m hc hp
    rw [call_tool_pass cfg w args _ (Or.inr hpro)]
    simp [handle, hc, hp]
  · intro q m hq hp
    rw [call_tool_pass cfg w args _ (Or.inr hpro)]
    simp [handle, hq, hp]
  · intro u m hu hp
    rw [call_tool_pass cfg w args _ (Or.inr hpro)]
    simp [handle, hu, hp]
  · intro q m hinit hq hp
    rw [call_tool_pass cfg w args _ (Or.inr hpro)]
    simp [handle, hinit, hq, hp]
  · intro q m hinit hq hp
    rw [call_tool_pass cfg w args _ (Or.inr hpro)]
    simp [handle, hinit, hq, hp]

/-- C6 witness: a subprocess timeout during search surfaces as a system
error carrying the timeout message. -/
theorem delegation_exception_caught_witness :
    (call_tool ⟨some "LICENSE-KEY", "cite-agent-pro"⟩
        ⟨.response 200 (some ⟨some true, some false⟩),
          .exn "Command timed out after 60 seconds", .ok "c", .ok "f", none,
          .ok none "r", none, .ok "[]", .response 200 (.pages ["p"])⟩
        "search_papers"
        ⟨some "transformer architecture", some 20, none, none, none⟩).1 =
      sysError "Command timed out after 60 seconds" :=
  (delegation_exception_caught ⟨some "LICENSE-KEY", "cite-agent-pro"⟩
      ⟨.response 200 (some ⟨some true, some false⟩),
        .exn "Command timed out after 60 seconds", .ok "c", .ok "f", none,
        .ok none "r", none, .ok "[]", .response 200 (.pages ["p"])⟩
      ⟨some "transformer architecture", some 20, none, none, none⟩ rfl).1
    "transformer architecture" "Command timed out after 60 seconds" rfl rfl

/-- C7: dispatch is stateless across invocations — in any two invocation
sequences that agree at position `i`, the `i`-th results agree, so each
call's result depends only on its own name, arguments, the process-wide
configuration, and the external responses observed during that call — and
every invocation with a set, non-empty credential performs a fresh
verification call to the license gate. -/
theorem stateless_dispatch (cfg : Config) (calls calls' : List Invocation)
    (i : Nat) (h : calls[i]? = calls'[i]?) :
    (call_tool_seq cfg calls)[i]? = (call_tool_seq cfg calls')[i]? ∧
      (∀ c ∈ calls, ∀ k : String, cfg.api_key = some k → k ≠ "" →
        Event.verifyCall ∈ (call_tool cfg c.world c.name c.args).2) := by
  constructor
  · simp [call_tool_seq, List.getElem?_map, h]
  · intro c _ k hk1 hk2
    have h2 : (validate_license_key cfg.api_key c.world.verify).2 =
        [Event.verifyCall] := by
      rw [hk1]
      exact validate_events_nonempty k hk2 _
    simp only [call_tool]
    split <;> simp [h2]

/-- C7 witness: appending a second, different invocation leaves the first
invocation's result unchanged, and the first invocation re-verifies. -/
theorem stateless_dispatch_witness :
    (call_tool_seq ⟨some "LICENSE-KEY", "cite-agent-pro"⟩
        [⟨⟨.response 200 (some ⟨some true, some false⟩), .ok "s", .ok "c",
            .ok "f", none, .ok none "r", none, .ok "[]",
            .response 200 (.pages ["p"])⟩,
          "search_papers", ⟨some "q", some 3, none, none, none⟩⟩])[0]? =
      (call_tool_seq ⟨some "LICENSE-KEY", "cite-agent-pro"⟩
        [⟨⟨.response 200 (some ⟨some true, some false⟩), .ok "s", .ok "c",
            .ok "f", none, .ok none "r", none, .ok "[]",
            .response 200 (.pages ["p"])⟩,
          "search_papers", ⟨some "q", some 3, none, none, none⟩⟩,
         ⟨⟨.netError "down", .ok "s", .ok "c", .ok "f", none, .ok none "r",
            none, .ok "[]", .response 200 (.pages ["p"])⟩,
          "verify_citation", ⟨none, none, none, none, some "c"⟩⟩])[0]? ∧
      Event.verifyCall ∈
        (call_tool ⟨some "LICENSE-KEY", "cite-agent-pro"⟩
          ⟨.response 200 (some ⟨some true, some false⟩), .ok "s", .ok "c",
            .ok "f", none, .ok none "r", none, .ok "[]",
            .response 200 (.pages ["p"])⟩
          "search_papers" ⟨some "q", some 3, none, none, none⟩).2 := by
  have h := stateless_dispatch ⟨some "LICENSE-KEY", "cite-agent-pro"⟩
    [⟨⟨.response 200 (some ⟨some true, some false⟩), .ok "s", .ok "c",
        .ok "f", none, .ok none "r", none, .ok "[]",
        .response 200 (.pages ["p"])⟩,
      "search_papers", ⟨some "q", some 3, none, none, none⟩⟩]
    [⟨⟨.response 200 (some ⟨some true, some false⟩), .ok "s", .ok "c",
        .ok "f", none, .ok none "r", none, .ok "[]",
        .response 200 (.pages ["p"])⟩,
      "search_papers", ⟨some "q", some 3, none, none, none⟩⟩,
     ⟨⟨.netError "down", .ok "s", .ok "c", .ok "f", none, .ok none "r",
        none, .ok "[]", .response 200 (.pages ["p"])⟩,
      "verify_citation", ⟨none, none, none, none, some "c"⟩⟩] 0 rfl
  exact ⟨h.1, h.2
    ⟨⟨.response 200 (some ⟨some true, some false⟩), .ok "s", .ok "c",
        .ok "f", none, .ok none "r", none, .ok "[]",
        .response 200 (.pages ["p"])⟩,
      "search_papers", ⟨some "q", some 3, none, none, none⟩⟩
    (by simp) "LICENSE-KEY" rfl (by decide)⟩

/-- C8: for an entitled `read_arxiv_pdf` invocation: an identifier that
does not start with `"http"` is interpolated into the canonical arXiv PDF
URL; the download targets that URL; on a successful download the result
text depends on at most the first 10 extracted pages; and the extracted
text is truncated to the fixed 15000-character budget before being
returned. -/
theorem arxiv_pdf_retrieval (cfg : Config) (w : World) (args : Args) (u : String)
    (hu : args.url_or_id = some u)
    (hpro : (validate_license_key cfg.api_key w.verify).1 = true) :
    (py_startswith u "http" = false →
        arxiv_url u = "https://arxiv.org/pdf/" ++ u ++ ".pdf") ∧
      Event.httpGet (arxiv_url u) ∈ (call_tool cfg w "read_arxiv_pdf" args).2 ∧
      (∀ ps, w.pdf_get = .response 200 (.pages ps) →
        (∃ t : String, t.length ≤ 15000 ∧
            (call_tool cfg w "read_arxiv_pdf" args).1 =
              "📄 **Full Text (First 10 pages)**\n\n" ++ t ++ "...") ∧
          (∀ w' : World, w'.verify = w.verify →
            w'.pdf_get = .response 200 (.pages (ps.take 10)) →
            (call_tool cfg w' "read_arxiv_pdf" args).1 =
              (call_tool cfg w "read_arxiv_pdf" args).1)) := by
  refine ⟨?_, ?_, ?_⟩
  · intro hs
    simp [arxiv_url, hs]
  · rw [call_tool_pass cfg w args _ (Or.inr hpro)]
    rcases hp : w.pdf_get with m | ⟨st, parse⟩
    · simp [handle, hu, hp]
    · by_cases h200 : st = 200
      · subst h200
        rcases parse with m | ps <;> simp [handle, hu, hp]
      · simp [handle, hu, hp, h200]
  · intro ps hps
    constructor
    · refine ⟨take_chars (String.join (ps.take 10)) 15000,
        take_chars_length_le _ _, ?_⟩
      rw [call_tool_pass cfg w args _ (Or.inr hpro)]
      simp [handle, hu, hps]
    · intro w' hv hp'
      have hpro' : (validate_license_key cfg.api_key w'.verify).1 = true := by
        rw [hv]
        exact hpro
      rw [call_tool_pass cfg w' args _ (Or.inr hpro'),
        call_tool_pass cfg w args _ (Or.inr hpro)]
      simp [handle, hu, hps, hp', List.take_take]

/-- C8 witness: the bare identifier "2308.07901" is interpolated into the
canonical URL and that URL is downloaded. -/
theorem arxiv_pdf_retrieval_witness :
    arxiv_url "2308.07901" = "https://arxiv.org/pdf/" ++ "2308.07901" ++ ".pdf" ∧
      Event.httpGet (arxiv_url "2308.07901") ∈
        (call_tool ⟨some "LICENSE-KEY", "cite-agent-pro"⟩
          ⟨.response 200 (some ⟨some true, some false⟩), .ok "s", .ok "c",
            .ok "f", none, .ok none "r", none, .ok "[]",
            .response 200 (.pages ["page one text"])⟩
          "read_arxiv_pdf" ⟨none, none, none, some "2308.07901", none⟩).2 := by
  have h := arxiv_pdf_retrieval ⟨some "LICENSE-KEY", "cite-agent-pro"⟩
    ⟨.response 200 (some ⟨some true, some false⟩), .ok "s", .ok "c",
      .ok "f", none, .ok none "r", none, .ok "[]",
      .response 200 (.pages ["page one text"])⟩
    ⟨none, none, none, some "2308.07901", none⟩ "2308.07901" rfl rfl
  exact ⟨h.1 (by decide), h.2.1⟩

/-- C9: an invocation that reaches its handler but omits the handler's
required argument key returns the generic textual error carrying the
`KeyError` message — and performs no collaborator call — rather than
raising a fault; no validation beyond key presence happens. -/
theorem missing_arg_key_error (cfg : Config) (w : World) (args : Args)
    (hpro : (validate_license_key cfg.api_key w.verify).1 = true) :
    (args.query = none →
        (call_tool cfg w "search_papers" args).1 = sysError "'query'" ∧
        ((call_tool cfg w "search_papers" args).2).filter Event.isCollab = []) ∧
    (args.citation = none →
        (call_tool cfg w "verify_citation" args).1 = sysError "'citation'" ∧
        ((call_tool cfg w "verify_citation" args).2).filter Event.isCollab = []) ∧
    (args.url_or_id = none →
        (call_tool cfg w "read_arxiv_pdf" args).1 = sysError "'url_or_id'" ∧
        ((call_tool cfg w "read_arxiv_pdf" args).2).filter Event.isCollab = []) ∧
    (args.query = none →
        (call_tool cfg w "get_financial_data" args).1 = sysError "'query'" ∧
        ((call_tool cfg w "get_financial_data" args).2).filter Event.isCollab = []) ∧
    (w.agent_init_error = none → args.question = none →
        (call_tool cfg w "research_deep_dive" args).1 =
          integrationError "'question'" ∧
        ((call_tool cfg w "research_deep_dive" args).2).filter Event.isCollab = []) ∧
    (w.zotero_init_error = none → args.query = none →
        (call_tool cfg w "get_zotero_papers" args).1 = zoteroError "'query'" ∧
        ((call_tool cfg w "get_zotero_papers" args).2).filter Event.isCollab = []) := by
  refine ⟨?_, ?_, ?_, ?_, ?_, ?_⟩
  · intro hq
    rw [call_tool_pass cfg w args _ (Or.inl rfl)]
    exact ⟨by simp [handle, hq], by simp [handle, hq, validate_collab_free]⟩
  · intro hc
    rw [call_tool_pass cfg w args _ (Or.inr hpro)]
    exact ⟨by simp [handle, hc], by simp [handle, hc, validate_collab_free]⟩
  · intro hu
    rw [call_tool_pass cfg w args _ (Or.inr hpro)]
    exact ⟨by simp [handle, hu], by simp [handle, hu, validate_collab_free]⟩
  · intro hq
    rw [call_tool_pass cfg w args _ (Or.inr hpro)]
    exact ⟨by simp [handle, hq], by simp [handle, hq, validate_collab_free]⟩
  · intro hinit hq
    rw [call_tool_pass cfg w args _ (Or.inr hpro)]
    exact ⟨by simp [handle, hinit, hq],
      by simp [handle, hinit, hq, validate_collab_free]⟩
  · intro hinit hq
    rw [call_tool_pass cfg w args _ (Or.inr hpro)]
    exact ⟨by simp [handle, hinit, hq],
      by simp [handle, hinit, hq, validate_collab_free]⟩

/-- C9 witness: `search_papers` without a "query" key yields the generic
system error for the missing key. -/
theorem missing_arg_key_error_witness :
    (call_tool ⟨some "LICENSE-KEY", "cite-agent-pro"⟩
        ⟨.response 200 (some ⟨some true, some false⟩), .ok "s", .ok "c",
          .ok "f", none, .ok none "r", none, .ok "[]",
          .response 200 (.pages ["p"])⟩
        "search_papers" ⟨none, none, none, none, none⟩).1 =
      sysError "'query'" :=
  ((missing_arg_key_error ⟨some "LICENSE-KEY", "cite-agent-pro"⟩
      ⟨.response 200 (some ⟨some true, some false⟩), .ok "s", .ok "c",
        .ok "f", none, .ok none "r", none, .ok "[]",
        .response 200 (.pages ["p"])⟩
      ⟨none, none, none, none, none⟩ rfl).1 rfl).1

/-- C10: when entitled, `search_papers` forwards the requested count with
no upper bound: for every requested `max_results`, including values above
10, the delegated command carries exactly the requested count. -/
theorem pro_search_unclamped (cfg : Config) (w : World) (args : Args)
    (query : String) (m : Int)
    (hq : args.query = some query) (hm : args.max_results = some m)
    (hpro : (validate_license_key cfg.api_key w.verify).1 = true) :
    Event.subprocessRun (search_cmd query m) ∈
      (call_tool cfg w "search_papers" args).2 := by
  rw [call_tool_pass cfg w args _ (Or.inl rfl)]
  rcases hp : w.search_proc with out | msg <;>
    simp [handle, hq, hm, hpro, hp]

/-- C10 witness: an entitled search with `max_results = 50` delegates 50. -/
theorem pro_search_unclamped_witness :
    Event.subprocessRun (search_cmd "quantum computing" 50) ∈
      (call_tool ⟨some "LICENSE-KEY", "cite-agent-pro"⟩
          ⟨.response 200 (some ⟨some true, some false⟩), .ok "s", .ok "c",
            .ok "f", none, .ok none "r", none, .ok "[]",
            .response 200 (.pages ["p"])⟩
          "search_papers"
          ⟨some "quantum computing", some 50, none, none, none⟩).2 :=
  pro_search_unclamped ⟨some "LICENSE-KEY", "cite-agent-pro"⟩
    ⟨.response 200 (some ⟨some true, some false⟩), .ok "s", .ok "c",
      .ok "f", none, .ok none "r", none, .ok "[]",
      .response 200 (.pages ["p"])⟩
    ⟨some "quantum computing", some 50, none, none, none⟩
    "quantum computing" 50 rfl rfl rfl

end CiteAgentMcp
